import Mathlib

/-!
Verification of the SpaceBridge event-dispatch core (SpaceBridge.py).

The dispatchers' update passes, the tables they consult and the shared
single-slot mailbox are embedded as executable Lean functions, translated
directly from the Python source.  Emitted uinput writes are modelled as a
list of `Ev` values in emission order.
-/

set_option maxHeartbeats 1000000

/-- Emitted uinput write: an absolute-axis write (`EV_ABS`), a key write
(`EV_KEY`, value 1 = press, 0 = release), or a synchronize call. -/
inductive Ev where
  | abs (code : Nat) (value : Int)
  | key (code : Nat) (value : Nat)
  | syn
  deriving DecidableEq, Repr

/-- Evdev code constants used by the tables (Linux input-event-codes.h). -/
def BTN_MISC : Nat := 0x100
def BTN_LEFT : Nat := 0x110
def BTN_RIGHT : Nat := 0x111
def BTN_SIDE : Nat := 0x113
def BTN_EXTRA : Nat := 0x114
def BTN_FORWARD : Nat := 0x115
def BTN_GEAR_UP : Nat := 0x151
def BTN_A : Nat := 0x130
def BTN_B : Nat := 0x131
def BTN_X : Nat := 0x133
def BTN_Y : Nat := 0x134
def BTN_TL : Nat := 0x136
def BTN_TR : Nat := 0x137
def BTN_TL2 : Nat := 0x138
def BTN_TR2 : Nat := 0x139
def BTN_SELECT : Nat := 0x13a
def BTN_START : Nat := 0x13b
def BTN_THUMBL : Nat := 0x13d
def BTN_THUMBR : Nat := 0x13e
def BTN_DPAD_UP : Nat := 0x220
def BTN_DPAD_DOWN : Nat := 0x221
def BTN_DPAD_LEFT : Nat := 0x222
def BTN_DPAD_RIGHT : Nat := 0x223
def BTN_TRIGGER_HAPPY1 : Nat := 0x2c0
def ABS_X : Nat := 0x00
def ABS_Y : Nat := 0x01
def ABS_Z : Nat := 0x02
def ABS_RX : Nat := 0x03
def ABS_RY : Nat := 0x04
def ABS_RZ : Nat := 0x05

/-- Axis scaling factor applied to both devices (`AXIS_SCALE = 20`). -/
def AXIS_SCALE : Int := 20

/-- Threshold separating low-level bitmask events from high-level event
codes (`HIGH_LEVEL_EVENT_THRESHOLD = 0x20000`). -/
def HIGH_LEVEL_EVENT_THRESHOLD : Int := 0x20000

/-- One fetched sample (fields of `ScStdData` / the dict built in
`ScDaemonComm.fetch_data`). -/
structure Sample where
  x : Int
  y : Int
  z : Int
  a : Int
  b : Int
  c : Int
  traLmh : Int
  rotLmh : Int
  event : Int
  tvSec : Int
  tvUsec : Int
  deriving DecidableEq, Repr

/-- Lookup in an association list, mirroring Python dict lookup (keys are
unique in every table below). -/
def alookup {α β : Type} [DecidableEq α] : List (α × β) → α → Option β
  | [], _ => none
  | p :: rest, k => if k = p.1 then some p.2 else alookup rest k

/-- `EVENT_ID_TO_NAME`: map of SpaceControl event ids / status codes to
descriptive names, in source order. -/
def EVENT_ID_TO_NAME : List (Int × String) :=
  [(-1, "NOTHING_CHANGED"),
   (0, "SC_OK"),
   (1, "SC_COMMUNICATION_ERROR"),
   (2, "SC_WRONG_DEVICE_INDEX"),
   (3, "SC_PARAMETER_OUT_OF_0RANGE"),
   (4, "SC_FILE_IO_ERROR"),
   (5, "SC_KEYSTROKE_ERROR"),
   (6, "SC_APPL_NOT_FOUND"),
   (7, "SC_REGISTRY_ERROR"),
   (8, "SC_NOT_SUPPORTED"),
   (9, "SC_EXEC_CMD_ERROR"),
   (10, "SC_THREAD_ERROR"),
   (11, "SC_WRONG_USER"),
   (0x20020, "APPL_FUNC_START"),
   (0x20000, "DEV_BASIC_SETTINGS_REQ"),
   (0x20001, "DEV_ADVANCED_SETTINGS_REQ"),
   (0x20002, "DEV_DEV_PARS_CHANGED"),
   (0x20003, "DEV_UNKNOWN_COMMAND_BYTE"),
   (0x20004, "DEV_PARAM_OUT_OF_RANGE"),
   (0x20005, "DEV_PARSE_ERROR"),
   (0x20006, "DEV_INTERNAL_DEVICE_ERROR"),
   (0x20007, "DEV_WRONG_TRANSCEIVER_ID"),
   (0x20008, "DEV_BUFFER_OVERFLOW"),
   (0x20009, "DEV_FRONT"),
   (0x2000A, "DEV_RIGHT"),
   (0x2000B, "DEV_TOP"),
   (0x2000C, "DEV_FIT"),
   (0x2000D, "DEV_WHEEL_LEFT"),
   (0x2000E, "DEV_WHEEL_RIGHT"),
   (0x2000F, "EVT_HNDL_SENS_DLG"),
   (0x20010, "EVT_HNDL_THRESH_DLG"),
   (0x20011, "EVT_HNDL_LCD_DLG"),
   (0x20012, "EVT_HNDL_LEDS_DLG"),
   (0x20013, "EVT_APPL_IN_FRGRND"),
   (0x20014, "EVT_HNDL_KBD_DLG"),
   (0x20015, "EVT_HNDL_WFL_DLG"),
   (0x20016, "DEV_BACK"),
   (0x20017, "DEV_LEFT"),
   (0x20018, "DEV_BOTTOM"),
   (0x20019, "DEV_CTRL")]

/-- `EVDEV_3DMOUSE_LOW_LEVEL_BUTTON_MAP`: SpaceControl button name to evdev
code for the 3D-mouse profile, in source order. -/
def EVDEV_3DMOUSE_LOW_LEVEL_BUTTON_MAP : List (String × Nat) :=
  [("SC_KEY_1", BTN_MISC + 0),
   ("SC_KEY_2", BTN_MISC + 1),
   ("SC_KEY_3", BTN_MISC + 2),
   ("SC_KEY_4", BTN_MISC + 3),
   ("SC_KEY_5", BTN_MISC + 4),
   ("SC_KEY_6", BTN_MISC + 5),
   ("SC_KEY_CTRL", BTN_MISC + 6),
   ("SC_KEY_ALT", BTN_MISC + 7),
   ("SC_KEY_SHIFT", BTN_MISC + 8),
   ("SC_KEY_ESC", BTN_MISC + 9),
   ("SC_KEY_FRONT", BTN_MISC + 10),
   ("SC_KEY_RIGHT", BTN_MISC + 11),
   ("SC_KEY_TOP", BTN_MISC + 12),
   ("SC_KEY_FIT", BTN_MISC + 13),
   ("SC_KEY_2D3D", BTN_MISC + 14),
   ("SC_KEY_1_B", BTN_MISC + 17),
   ("SC_KEY_2_B", BTN_MISC + 18),
   ("SC_KEY_3_B", BTN_MISC + 19),
   ("SC_KEY_4_B", BTN_MISC + 20),
   ("SC_KEY_5_B", BTN_MISC + 21),
   ("SC_KEY_6_B", BTN_MISC + 22),
   ("SC_KEY_CTRL_B", BTN_MISC + 23),
   ("SC_KEY_ALT_B", BTN_MISC + 24),
   ("SC_KEY_SHIFT_B", BTN_MISC + 25),
   ("SC_KEY_ESC_B", BTN_MISC + 26),
   ("SC_KEY_FRONT_B", BTN_MISC + 27),
   ("SC_KEY_RIGHT_B", BTN_MISC + 28),
   ("SC_KEY_TOP_B", BTN_MISC + 29),
   ("SC_KEY_FIT_B", BTN_MISC + 30),
   ("SC_KEY_2D3D_B", BTN_MISC + 31)]

/-- `HIGH_LEVEL_EVENT_MAP_FOR_UINPUT`: high-level event code to evdev
button code for the 3D-mouse profile, in source order. -/
def HIGH_LEVEL_EVENT_MAP_FOR_UINPUT : List (Int × Nat) :=
  [(0x20009, BTN_SIDE),
   (0x2000A, BTN_EXTRA),
   (0x2000B, BTN_FORWARD),
   (0x2000C, BTN_GEAR_UP),
   (0x20016, BTN_SIDE + 1),
   (0x20017, BTN_EXTRA + 1),
   (0x20018, BTN_FORWARD + 1),
   (0x2000D, BTN_LEFT),
   (0x2000E, BTN_RIGHT),
   (0x2000F, BTN_MISC + 34),
   (0x20010, BTN_MISC + 35),
   (0x20011, BTN_MISC + 36),
   (0x20012, BTN_MISC + 37),
   (0x20013, BTN_MISC + 38),
   (0x20014, BTN_MISC + 39),
   (0x20015, BTN_MISC + 40),
   (0x20019, BTN_MISC + 41)]

/-- `EVDEV_GAMEPAD_BUTTON_MAP`: SpaceControl button name to evdev code for
the gamepad profile, in source order. -/
def EVDEV_GAMEPAD_BUTTON_MAP : List (String × Nat) :=
  [("SC_KEY_1", BTN_A),
   ("SC_KEY_2", BTN_B),
   ("SC_KEY_3", BTN_X),
   ("SC_KEY_4", BTN_Y),
   ("SC_KEY_5", BTN_TL),
   ("SC_KEY_6", BTN_TR),
   ("SC_KEY_CTRL", BTN_SELECT),
   ("SC_KEY_ALT", BTN_START),
   ("SC_KEY_SHIFT", BTN_THUMBL),
   ("SC_KEY_ESC", BTN_THUMBR),
   ("SC_KEY_FRONT", BTN_DPAD_UP),
   ("SC_KEY_RIGHT", BTN_DPAD_RIGHT),
   ("SC_KEY_TOP", BTN_DPAD_DOWN),
   ("SC_KEY_FIT", BTN_DPAD_LEFT),
   ("SC_KEY_2D3D", BTN_TRIGGER_HAPPY1),
   ("SC_KEY_1_B", BTN_TRIGGER_HAPPY1 + 3),
   ("SC_KEY_2_B", BTN_TRIGGER_HAPPY1 + 4),
   ("SC_KEY_3_B", BTN_TRIGGER_HAPPY1 + 5),
   ("SC_KEY_4_B", BTN_TRIGGER_HAPPY1 + 6),
   ("SC_KEY_5_B", BTN_TRIGGER_HAPPY1 + 7),
   ("SC_KEY_6_B", BTN_TRIGGER_HAPPY1 + 8),
   ("SC_KEY_CTRL_B", BTN_TRIGGER_HAPPY1 + 9),
   ("SC_KEY_ALT_B", BTN_TRIGGER_HAPPY1 + 10),
   ("SC_KEY_SHIFT_B", BTN_TRIGGER_HAPPY1 + 11),
   ("SC_KEY_ESC_B", BTN_TRIGGER_HAPPY1 + 12),
   ("SC_KEY_FRONT_B", BTN_TRIGGER_HAPPY1 + 13),
   ("SC_KEY_RIGHT_B", BTN_TRIGGER_HAPPY1 + 14),
   ("SC_KEY_TOP_B", BTN_TRIGGER_HAPPY1 + 15),
   ("SC_KEY_FIT_B", BTN_TRIGGER_HAPPY1 + 16),
   ("SC_KEY_2D3D_B", BTN_TRIGGER_HAPPY1 + 17),
   ("SC_DEV_WHEEL_LEFT", BTN_TL2),
   ("SC_DEV_WHEEL_RIGHT", BTN_TR2),
   ("SC_EVT_HNDL_SENS_DLG", BTN_TRIGGER_HAPPY1 + 18),
   ("SC_EVT_HNDL_THRESH_DLG", BTN_TRIGGER_HAPPY1 + 19),
   ("SC_EVT_HNDL_LCD_DLG", BTN_TRIGGER_HAPPY1 + 20),
   ("SC_EVT_HNDL_LEDS_DLG", BTN_TRIGGER_HAPPY1 + 21),
   ("SC_EVT_APPL_IN_FRGRND", BTN_TRIGGER_HAPPY1 + 22),
   ("SC_EVT_HNDL_KBD_DLG", BTN_TRIGGER_HAPPY1 + 23),
   ("SC_EVT_HNDL_WFL_DLG", BTN_TRIGGER_HAPPY1 + 24),
   ("SC_DEV_CTRL", BTN_TRIGGER_HAPPY1 + 25)]

/-- `BUTTON_BIT_MAP`: bit position in a low-level event bitmask to
SpaceControl button name.  Bit positions 15 and 16 (Panel / Menu) are
absent, exactly as in the source. -/
def BUTTON_BIT_MAP : List (Nat × String) :=
  [(0, "SC_KEY_1"), (1, "SC_KEY_2"), (2, "SC_KEY_3"), (3, "SC_KEY_4"),
   (4, "SC_KEY_5"), (5, "SC_KEY_6"), (6, "SC_KEY_CTRL"), (7, "SC_KEY_ALT"),
   (8, "SC_KEY_SHIFT"), (9, "SC_KEY_ESC"), (10, "SC_KEY_FRONT"),
   (11, "SC_KEY_RIGHT"), (12, "SC_KEY_TOP"), (13, "SC_KEY_FIT"),
   (14, "SC_KEY_2D3D"),
   (17, "SC_KEY_1_B"), (18, "SC_KEY_2_B"), (19, "SC_KEY_3_B"),
   (20, "SC_KEY_4_B"), (21, "SC_KEY_5_B"), (22, "SC_KEY_6_B"),
   (23, "SC_KEY_CTRL_B"), (24, "SC_KEY_ALT_B"), (25, "SC_KEY_SHIFT_B"),
   (26, "SC_KEY_ESC_B"), (27, "SC_KEY_FRONT_B"), (28, "SC_KEY_RIGHT_B"),
   (29, "SC_KEY_TOP_B"), (30, "SC_KEY_FIT_B"), (31, "SC_KEY_2D3D_B")]

/-- Iteration order of the low-level button edge loop
(`for sc_button_name in BUTTON_BIT_MAP.values()`). -/
def BUTTON_NAMES : List String := BUTTON_BIT_MAP.map Prod.snd

/-- The six last-emitted scaled axis values of one dispatcher
(`self.last_axis_values`, dict iteration order x, y, z, a, b, c). -/
structure AxisVals where
  x : Int
  y : Int
  z : Int
  a : Int
  b : Int
  c : Int
  deriving DecidableEq, Repr

/-- The all-zero axis table set up in `BaseVirtualController.__init__`. -/
def initAxisVals : AxisVals := ⟨0, 0, 0, 0, 0, 0⟩

/-- `current_axis_values` of `BaseVirtualController.update`: each raw axis
reading multiplied by `AXIS_SCALE` (`int(data[axis] * AXIS_SCALE)`, exact
on integers). -/
def scaledAxes (s : Sample) : AxisVals :=
  ⟨s.x * AXIS_SCALE, s.y * AXIS_SCALE, s.z * AXIS_SCALE,
   s.a * AXIS_SCALE, s.b * AXIS_SCALE, s.c * AXIS_SCALE⟩

/-- Axis loop of `BaseVirtualController.update`: for each axis in dict
order, write an `EV_ABS` event iff the scaled value differs from the
last-emitted value. -/
def axisEvents (last cur : AxisVals) : List Ev :=
  (if cur.x ≠ last.x then [Ev.abs ABS_X cur.x] else [])
    ++ (if cur.y ≠ last.y then [Ev.abs ABS_Y cur.y] else [])
    ++ (if cur.z ≠ last.z then [Ev.abs ABS_Z cur.z] else [])
    ++ (if cur.a ≠ last.a then [Ev.abs ABS_RX cur.a] else [])
    ++ (if cur.b ≠ last.b then [Ev.abs ABS_RY cur.b] else [])
    ++ (if cur.c ≠ last.c then [Ev.abs ABS_RZ cur.c] else [])

/-- `motion_changed` flag of `BaseVirtualController.update`: some scaled
value differs from the last-emitted one. -/
def motionChanged (last cur : AxisVals) : Bool :=
  decide (cur.x ≠ last.x) || decide (cur.y ≠ last.y) || decide (cur.z ≠ last.z)
    || decide (cur.a ≠ last.a) || decide (cur.b ≠ last.b) || decide (cur.c ≠ last.c)

/-- `BaseVirtualController.update` (device present): emits the changed-axis
events, unconditionally stores the current scaled values, and returns the
`motion_changed` flag together with the scaled values. -/
def baseUpdate (last : AxisVals) (s : Sample) : List Ev × Bool × AxisVals :=
  (axisEvents last (scaledAxes s), motionChanged last (scaledAxes s), scaledAxes s)

/-- `is_any_axis_moving`: `any(abs(val) > 0 ...)` over the current scaled
axis values. -/
def isMoving (cur : AxisVals) : Bool :=
  decide (0 < cur.x.natAbs) || decide (0 < cur.y.natAbs) || decide (0 < cur.z.natAbs)
    || decide (0 < cur.a.natAbs) || decide (0 < cur.b.natAbs) || decide (0 < cur.c.natAbs)

/-- `current_high_level_event`: the sample's event value when it is at
least `HIGH_LEVEL_EVENT_THRESHOLD` and no axis is moving, else `None`. -/
def currentHigh (ev : Int) (moving : Bool) : Option Int :=
  if HIGH_LEVEL_EVENT_THRESHOLD ≤ ev ∧ moving = false then some ev else none

/-- High-level release pass of `Virtual3DMouseController.update`: release
the previously active high-level event when it is no longer active and is
in `HIGH_LEVEL_EVENT_MAP_FOR_UINPUT`. -/
def highRelease (last cur : Option Int) : List Ev :=
  match last with
  | none => []
  | some a =>
    if cur = some a then []
    else
      match alookup HIGH_LEVEL_EVENT_MAP_FOR_UINPUT a with
      | some code => [Ev.key code 0]
      | none => []

/-- High-level press pass of `Virtual3DMouseController.update`: press the
current high-level event when it is new and mapped. -/
def highPress (last cur : Option Int) : List Ev :=
  match cur with
  | none => []
  | some b =>
    if last = some b then []
    else
      match alookup HIGH_LEVEL_EVENT_MAP_FOR_UINPUT b with
      | some code => [Ev.key code 1]
      | none => []

/-- Decoding of a low-level bitmask: the names of the table bits set in
`ev` (`(event_value >> bit_position) & 1`), in table order. -/
def desiredCore (ev : Nat) : List String :=
  BUTTON_BIT_MAP.filterMap (fun p => if Nat.testBit ev p.1 then some p.2 else none)

/-- `current_low_level_button_names`: the decoded bitmask when the event
value is in the low-level range, no high-level event is active and no axis
is moving; empty otherwise. -/
def desiredLowNames (ev : Int) (curHigh : Option Int) (moving : Bool) : List String :=
  if 0 < ev ∧ ev < HIGH_LEVEL_EVENT_THRESHOLD ∧ curHigh = none ∧ moving = false then
    desiredCore ev.toNat
  else []

/-- Python dict read with default `False`
(`self.last_low_level_button_state.get(name, False)`). -/
def getBtn : List (String × Bool) → String → Bool
  | [], _ => false
  | p :: rest, k => if p.1 = k then p.2 else getBtn rest k

/-- Python dict write (`state[name] = value`): replace in place or append. -/
def setBtn : List (String × Bool) → String → Bool → List (String × Bool)
  | [], k, v => [(k, v)]
  | p :: rest, k, v => if p.1 = k then (k, v) :: rest else p :: setBtn rest k v

/-- Low-level edge loop of `Virtual3DMouseController.update`: for every
table name (with an entry in the 3D-mouse button map) compare desired
against previous state, emit the press/release edge, and store the desired
state. -/
def lowPassAux : List String → List (String × Bool) → List String → List Ev × List (String × Bool)
  | [], btns, _ => ([], btns)
  | n :: rest, btns, desired =>
    match alookup EVDEV_3DMOUSE_LOW_LEVEL_BUTTON_MAP n with
    | none => lowPassAux rest btns desired
    | some code =>
      let cur := decide (n ∈ desired)
      let was := getBtn btns n
      let e :=
        if cur && !was then [Ev.key code 1]
        else if !cur && was then [Ev.key code 0]
        else []
      let r := lowPassAux rest (setBtn btns n cur) desired
      (e ++ r.1, r.2)

/-- Mutable state of the 3D-mouse dispatcher. -/
structure MouseState where
  lastAxis : AxisVals
  lowBtns : List (String × Bool)
  lastHigh : Option Int
  deriving DecidableEq, Repr

/-- Dispatcher state after `Virtual3DMouseController.__init__`. -/
def initMouseState : MouseState := ⟨initAxisVals, [], none⟩

/-- Low-level pass of `Virtual3DMouseController.update` on a dispatcher
state and sample. -/
def mouseLow (st : MouseState) (s : Sample) : List Ev × List (String × Bool) :=
  lowPassAux BUTTON_NAMES st.lowBtns
    (desiredLowNames s.event
      (currentHigh s.event (isMoving (scaledAxes s)))
      (isMoving (scaledAxes s)))

/-- `Virtual3DMouseController.update` (device present): the axis pass,
the high-level release then press passes, the low-level edge loop, and the
final synchronize call, returning the emitted events in order together
with the updated dispatcher state. -/
def mouseUpdate (st : MouseState) (s : Sample) : List Ev × MouseState :=
  ((baseUpdate st.lastAxis s).1
     ++ highRelease st.lastHigh (currentHigh s.event (isMoving (scaledAxes s)))
     ++ highPress st.lastHigh (currentHigh s.event (isMoving (scaledAxes s)))
     ++ (mouseLow st s).1
     ++ [Ev.syn],
   ⟨scaledAxes s, (mouseLow st s).2,
    currentHigh s.event (isMoving (scaledAxes s))⟩)

/-- States of the 3D-mouse dispatcher reachable from initialization by any
sequence of processed samples. -/
inductive MouseReach : MouseState → Prop
  | init : MouseReach initMouseState
  | step (st : MouseState) (s : Sample) : MouseReach st → MouseReach (mouseUpdate st s).2

/-- Gamepad high-level key derivation (lines 669-679 / 690-699): the event
name from `EVENT_ID_TO_NAME` mapped onto the gamepad map's key. -/
def gamepadHighKey (code : Int) : Option String :=
  match alookup EVENT_ID_TO_NAME code with
  | none => none
  | some nm =>
    if nm = "DEV_WHEEL_LEFT" then some "SC_DEV_WHEEL_LEFT"
    else if nm = "DEV_WHEEL_RIGHT" then some "SC_DEV_WHEEL_RIGHT"
    else if nm = "DEV_CTRL" then some "SC_DEV_CTRL"
    else if nm ∈ ["EVT_HNDL_SENS_DLG", "EVT_HNDL_THRESH_DLG", "EVT_HNDL_LCD_DLG",
                  "EVT_HNDL_LEDS_DLG", "EVT_APPL_IN_FRGRND", "EVT_HNDL_KBD_DLG",
                  "EVT_HNDL_WFL_DLG"] then some nm
    else none

/-- Gamepad evdev code for a high-level event: derived key looked up in
`EVDEV_GAMEPAD_BUTTON_MAP`. -/
def gamepadResolve (code : Int) : Option Nat :=
  (gamepadHighKey code).bind (alookup EVDEV_GAMEPAD_BUTTON_MAP)

/-- Gamepad high-level release pass. -/
def gpRelease (last cur : Option Int) : List Ev :=
  match last with
  | none => []
  | some a =>
    if cur = some a then []
    else
      match gamepadResolve a with
      | some code => [Ev.key code 0]
      | none => []

/-- Gamepad high-level press pass. -/
def gpPress (last cur : Option Int) : List Ev :=
  match cur with
  | none => []
  | some b =>
    if last = some b then []
    else
      match gamepadResolve b with
      | some code => [Ev.key code 1]
      | none => []

/-- Mutable state of the gamepad dispatcher. -/
structure GamepadState where
  lastAxis : AxisVals
  lastBtns : List (String × Bool)
  lastHigh : Option Int
  deriving DecidableEq, Repr

/-- `VirtualGamepadController.update` (device present): axis pass, then
high-level release and press, then the low-level button pass.  That pass
iterates over `GAMEPAD_BIT_TO_EVDEV_CODE`, a name defined nowhere in the
program, so Python raises `NameError` there: the returned flag records the
raised error; `last_button_state` is never touched and no synchronize call
is reached. -/
def gamepadUpdate (st : GamepadState) (s : Sample) : List Ev × GamepadState × Bool :=
  ((baseUpdate st.lastAxis s).1
     ++ gpRelease st.lastHigh (currentHigh s.event (isMoving (scaledAxes s)))
     ++ gpPress st.lastHigh (currentHigh s.event (isMoving (scaledAxes s))),
   ⟨scaledAxes s, st.lastBtns,
    currentHigh s.event (isMoving (scaledAxes s))⟩,
   true)

/-- `SharedSpaceControlData`: single slot plus availability flag (the
`threading.Event`).  The lock only guards the copy-in/copy-out. -/
structure SharedSpaceControlData where
  data : Option Sample
  newDataEvent : Bool
  deriving DecidableEq, Repr

/-- Freshly constructed shared container: no data, flag clear. -/
def initShared : SharedSpaceControlData := ⟨none, false⟩

/-- `set_data`: overwrite the slot and set the availability flag; never
blocks beyond the copy. -/
def set_data (_m : SharedSpaceControlData) (d : Sample) : SharedSpaceControlData :=
  ⟨some d, true⟩

/-- `get_data` with no concurrent publish: `wait(timeout)` returns (its
result is ignored by the source), then a copy of the slot is returned —
whether or not the wait timed out — and the flag is cleared.  The slot
itself is never cleared. -/
def get_data (m : SharedSpaceControlData) : Option Sample × SharedSpaceControlData :=
  (m.data, ⟨m.data, false⟩)

/-! Helper lemmas about the embedded passes. -/

lemma mem_if_list {c : Prop} [Decidable c] {e : Ev} {l : List Ev} :
    (e ∈ if c then l else []) ↔ c ∧ e ∈ l := by
  split <;> simp_all

lemma key_not_mem_axisEvents (last cur : AxisVals) (c v : Nat) :
    Ev.key c v ∉ axisEvents last cur := by
  simp [axisEvents, mem_if_list]

lemma syn_not_mem_axisEvents (last cur : AxisVals) :
    Ev.syn ∉ axisEvents last cur := by
  simp [axisEvents, mem_if_list]

lemma axisEvents_self (v : AxisVals) : axisEvents v v = [] := by
  simp [axisEvents]

lemma mem_highRelease {last cur : Option Int} {e : Ev} :
    e ∈ highRelease last cur → ∃ c, e = Ev.key c 0 := by
  unfold highRelease
  cases last with
  | none => simp
  | some a =>
    split
    · simp
    · cases h : alookup HIGH_LEVEL_EVENT_MAP_FOR_UINPUT a <;> simp_all

lemma mem_highPress {last cur : Option Int} {e : Ev} :
    e ∈ highPress last cur → ∃ c, e = Ev.key c 1 := by
  unfold highPress
  cases cur with
  | none => simp
  | some b =>
    split
    · simp
    · cases h : alookup HIGH_LEVEL_EVENT_MAP_FOR_UINPUT b <;> simp_all

lemma highRelease_self (h : Option Int) : highRelease h h = [] := by
  cases h <;> simp [highRelease]

lemma highPress_self (h : Option Int) : highPress h h = [] := by
  cases h <;> simp [highPress]

lemma highPress_none (last : Option Int) : highPress last none = [] := rfl

lemma mem_gpRelease {last cur : Option Int} {e : Ev} :
    e ∈ gpRelease last cur → ∃ c, e = Ev.key c 0 := by
  unfold gpRelease
  cases last with
  | none => simp
  | some a =>
    split
    · simp
    · cases h : gamepadResolve a <;> simp_all

lemma mem_gpPress {last cur : Option Int} {e : Ev} :
    e ∈ gpPress last cur → ∃ c, e = Ev.key c 1 := by
  unfold gpPress
  cases cur with
  | none => simp
  | some b =>
    split
    · simp
    · cases h : gamepadResolve b <;> simp_all

lemma getBtn_setBtn (b : List (String × Bool)) (k : String) (v : Bool) (k2 : String) :
    getBtn (setBtn b k v) k2 = if k2 = k then v else getBtn b k2 := by
  induction b with
  | nil =>
    by_cases h : k2 = k
    · simp [setBtn, getBtn, h]
    · have h2 : ¬k = k2 := fun hh => h hh.symm
      simp [setBtn, getBtn, h, h2]
  | cons p rest ih =>
    by_cases hpk : p.1 = k
    · by_cases hk2 : k2 = k
      · subst hk2; simp [setBtn, getBtn, hpk]
      · have h2 : ¬k = k2 := fun hh => hk2 hh.symm
        simp [setBtn, getBtn, hpk, hk2, h2]
    · by_cases hp2 : p.1 = k2
      · have h2 : ¬k2 = k := fun hh => hpk (hp2.trans hh)
        simp [setBtn, getBtn, hpk, hp2, h2]
      · simp [setBtn, getBtn, hpk, hp2, ih]

lemma mem_setBtn {b : List (String × Bool)} {k : String} {v : Bool}
    {q : String × Bool} : q ∈ setBtn b k v → q ∈ b ∨ q.1 = k := by
  induction b with
  | nil =>
    simp only [setBtn, List.mem_singleton]
    rintro rfl
    right; rfl
  | cons p rest ih =>
    by_cases hpk : p.1 = k
    · simp only [setBtn, hpk, if_pos, List.mem_cons]
      rintro (rfl | hq)
      · right; rfl
      · left; right; exact hq
    · simp only [setBtn, hpk, if_neg, not_false_iff, List.mem_cons]
      rintro (rfl | hq)
      · left; left; rfl
      · rcases ih hq with h | h
        · left; right; exact h
        · right; exact h

lemma lowPassAux_no_press (names : List String) (btns : List (String × Bool)) (c : Nat) :
    Ev.key c 1 ∉ (lowPassAux names btns []).1 := by
  induction names generalizing btns with
  | nil => simp [lowPassAux]
  | cons n rest ih =>
    cases h : alookup EVDEV_3DMOUSE_LOW_LEVEL_BUTTON_MAP n with
    | none => simpa [lowPassAux, h] using ih btns
    | some code =>
      simp only [lowPassAux, h, List.mem_append, not_or]
      refine ⟨?_, ih _⟩
      split_ifs <;> simp_all

lemma lowPassAux_get_not_mem (names : List String) (btns : List (String × Bool))
    (d : List String) (n : String) (hn : n ∉ names) :
    getBtn (lowPassAux names btns d).2 n = getBtn btns n := by
  induction names generalizing btns with
  | nil => simp [lowPassAux]
  | cons m rest ih =>
    have hnm : n ≠ m := fun h => hn (by simp [h])
    have hnr : n ∉ rest := fun h => hn (by simp [h])
    cases h : alookup EVDEV_3DMOUSE_LOW_LEVEL_BUTTON_MAP m with
    | none => simpa [lowPassAux, h] using ih _ hnr
    | some code =>
      simp only [lowPassAux, h]
      rw [ih _ hnr, getBtn_setBtn]
      simp [hnm]

lemma lowPassAux_get_mem (names : List String) (btns : List (String × Bool))
    (d : List String) (n : String) (hn : n ∈ names)
    (hm : (alookup EVDEV_3DMOUSE_LOW_LEVEL_BUTTON_MAP n).isSome) :
    getBtn (lowPassAux names btns d).2 n = decide (n ∈ d) := by
  induction names generalizing btns with
  | nil => simp at hn
  | cons m rest ih =>
    by_cases hnr : n ∈ rest
    · cases h : alookup EVDEV_3DMOUSE_LOW_LEVEL_BUTTON_MAP m with
      | none => simpa [lowPassAux, h] using ih _ hnr
      | some code => simpa [lowPassAux, h] using ih _ hnr
    · have hnm : n = m := by
        rcases List.mem_cons.mp hn with h | h
        · exact h
        · exact absurd h hnr
      subst hnm
      cases h : alookup EVDEV_3DMOUSE_LOW_LEVEL_BUTTON_MAP n with
      | none => rw [h] at hm; simp at hm
      | some code =>
        simp only [lowPassAux, h]
        rw [lowPassAux_get_not_mem rest _ d n hnr, getBtn_setBtn]
        simp

lemma lowPassAux_no_events (names : List String) (btns : List (String × Bool))
    (d : List String)
    (h : ∀ n ∈ names, (alookup EVDEV_3DMOUSE_LOW_LEVEL_BUTTON_MAP n).isSome →
      getBtn btns n = decide (n ∈ d)) :
    (lowPassAux names btns d).1 = [] := by
  induction names generalizing btns with
  | nil => simp [lowPassAux]
  | cons n rest ih =>
    cases hl : alookup EVDEV_3DMOUSE_LOW_LEVEL_BUTTON_MAP n with
    | none =>
      simp only [lowPassAux, hl]
      exact ih _ (fun m hm => h m (by simp [hm]))
    | some code =>
      have hwas : getBtn btns n = decide (n ∈ d) :=
        h n (by simp) (by rw [hl]; simp)
      have hrest : (lowPassAux rest (setBtn btns n (decide (n ∈ d))) d).1 = [] := by
        apply ih
        intro m hm hms
        rw [getBtn_setBtn]
        by_cases hmn : m = n
        · subst hmn; simp
        · rw [if_neg hmn]; exact h m (by simp [hm]) hms
      simp [lowPassAux, hl, hwas, hrest]

lemma lowPassAux_keys {names : List String} {btns : List (String × Bool)}
    {d : List String} {p : String × Bool} :
    p ∈ (lowPassAux names btns d).2 → p.1 ∈ btns.map Prod.fst ∨ p.1 ∈ names := by
  induction names generalizing btns with
  | nil =>
    simp only [lowPassAux]
    intro hp
    exact Or.inl (List.mem_map_of_mem Prod.fst hp)
  | cons n rest ih =>
    intro hp
    cases h : alookup EVDEV_3DMOUSE_LOW_LEVEL_BUTTON_MAP n with
    | none =>
      rw [lowPassAux, h] at hp
      rcases ih hp with hb | hr
      · exact Or.inl hb
      · exact Or.inr (by simp [hr])
    | some code =>
      rw [lowPassAux, h] at hp
      rcases ih hp with hb | hr
      · rcases List.mem_map.mp hb with ⟨q, hq, hq1⟩
        rcases mem_setBtn hq with hqb | hqk
        · exact Or.inl (hq1 ▸ List.mem_map_of_mem Prod.fst hqb)
        · exact Or.inr (by simp [← hq1, hqk])
      · exact Or.inr (by simp [hr])

lemma currentHigh_true (ev : Int) : currentHigh ev true = none := by
  simp [currentHigh]

lemma desiredLowNames_moving (ev : Int) (ch : Option Int) :
    desiredLowNames ev ch true = [] := by
  simp [desiredLowNames]

/-! Claim theorems. -/

/-- C2: the sample mailbox is single-slot and latest-wins: `set_data`
overwrites any unread sample with the new one and raises the availability
flag, and when S1, S2, S3 are published between two takes the next
`get_data` returns exactly the last-published sample S3. -/
theorem c2_mailbox_latest_wins :
    ∀ (m : SharedSpaceControlData) (s1 s2 s3 : Sample),
      (set_data m s3).data = some s3 ∧ (set_data m s3).newDataEvent = true ∧
      (get_data (set_data (set_data (set_data m s1) s2) s3)).1 = some s3 :=
  fun _ _ _ _ => ⟨rfl, rfl, rfl⟩

/-- C3 counterexample: publish one sample, take it, then take again with no
further publish: the second take returns the already-returned sample again
instead of "no data", because `get_data` clears only the flag and never the
slot. -/
theorem c3_stale_retake_cex :
    (get_data (set_data initShared ⟨1, 2, 3, 4, 5, 6, 0, 0, 0, 0, 0⟩)).1 =
        some ⟨1, 2, 3, 4, 5, 6, 0, 0, 0, 0, 0⟩ ∧
    (get_data (get_data (set_data initShared ⟨1, 2, 3, 4, 5, 6, 0, 0, 0, 0, 0⟩)).2).1 =
        some ⟨1, 2, 3, 4, 5, 6, 0, 0, 0, 0, 0⟩ :=
  ⟨rfl, rfl⟩

/-- C3 (amended): `get_data` clears the availability flag but not the slot:
it returns whatever the slot holds, which is "no data" only when nothing
was ever published (as from the initial state); consequently a sample
already returned by one take is returned again by a later timed-out take.
The single slot holds at most one sample at any time. -/
theorem c3_take_semantics_amended :
    ∀ (m : SharedSpaceControlData) (s : Sample),
      ((get_data m).1 = none ↔ m.data = none) ∧
      (get_data m).2.newDataEvent = false ∧
      (get_data m).2.data = m.data ∧
      (get_data initShared).1 = none ∧
      (get_data (set_data m s)).1 = some s ∧
      (get_data (get_data (set_data m s)).2).1 = some s :=
  fun _ _ => ⟨Iff.rfl, rfl, rfl, rfl, rfl, rfl⟩

/-- C4: every gamepad update cycle whose uinput device exists reaches the
low-level pass, which iterates over the undefined global name
GAMEPAD_BIT_TO_EVDEV_CODE and raises NameError: the raised flag is always
set, the low-level button state is never updated, and the cycle's final
synchronize call is never emitted. -/
theorem c4_gamepad_nameerror :
    ∀ (st : GamepadState) (s : Sample),
      (gamepadUpdate st s).2.2 = true ∧
      (gamepadUpdate st s).2.1.lastBtns = st.lastBtns ∧
      Ev.syn ∉ (gamepadUpdate st s).1 := by
  intro st s
  refine ⟨rfl, rfl, ?_⟩
  intro hmem
  simp only [gamepadUpdate, baseUpdate, List.mem_append] at hmem
  rcases hmem with (h | h) | h
  · exact syn_not_mem_axisEvents _ _ h
  · obtain ⟨c, hc⟩ := mem_gpRelease h
    simp at hc
  · obtain ⟨c, hc⟩ := mem_gpPress h
    simp at hc

/-- C6: from the all-released initial state, a no-motion cycle with event
bitmask 3 (bits 0 and 1 set) emits exactly the presses of the buttons for
bits 0 and 1 in fixed table order, and the following no-motion cycle with
bitmask 1 (bit 1 cleared) emits exactly the release of bit 1's button and
no other press or release. -/
theorem c6_lowlevel_edges :
    (mouseUpdate initMouseState ⟨0, 0, 0, 0, 0, 0, 0, 0, 3, 0, 0⟩).1 =
        [Ev.key (BTN_MISC + 0) 1, Ev.key (BTN_MISC + 1) 1, Ev.syn] ∧
    (mouseUpdate (mouseUpdate initMouseState ⟨0, 0, 0, 0, 0, 0, 0, 0, 3, 0, 0⟩).2
        ⟨0, 0, 0, 0, 0, 0, 0, 0, 1, 0, 0⟩).1 =
        [Ev.key (BTN_MISC + 1) 0, Ev.syn] := by
  constructor <;> rfl

/-- C9: the axis translator multiplies each raw axis by AXIS_SCALE, emits
an absolute-axis update for an axis exactly when the scaled value differs
from the last-emitted value in the dispatcher's AxisState, and stores the
scaled values unconditionally; from the all-zero state, raw axes
(100,0,0,0,0,0) produce exactly one update, X = 2000. -/
theorem c9_axis_translation :
    (∀ (last : AxisVals) (s : Sample),
      (Ev.abs ABS_X (s.x * AXIS_SCALE) ∈ (baseUpdate last s).1 ↔ s.x * AXIS_SCALE ≠ last.x) ∧
      (Ev.abs ABS_Y (s.y * AXIS_SCALE) ∈ (baseUpdate last s).1 ↔ s.y * AXIS_SCALE ≠ last.y) ∧
      (Ev.abs ABS_Z (s.z * AXIS_SCALE) ∈ (baseUpdate last s).1 ↔ s.z * AXIS_SCALE ≠ last.z) ∧
      (Ev.abs ABS_RX (s.a * AXIS_SCALE) ∈ (baseUpdate last s).1 ↔ s.a * AXIS_SCALE ≠ last.a) ∧
      (Ev.abs ABS_RY (s.b * AXIS_SCALE) ∈ (baseUpdate last s).1 ↔ s.b * AXIS_SCALE ≠ last.b) ∧
      (Ev.abs ABS_RZ (s.c * AXIS_SCALE) ∈ (baseUpdate last s).1 ↔ s.c * AXIS_SCALE ≠ last.c) ∧
      (baseUpdate last s).2.2 = scaledAxes s) ∧
    (baseUpdate initAxisVals ⟨100, 0, 0, 0, 0, 0, 0, 0, 0, 0, 0⟩).1 = [Ev.abs ABS_X 2000] := by
  constructor
  · intro last s
    refine ⟨?_, ?_, ?_, ?_, ?_, ?_, rfl⟩ <;>
      simp [baseUpdate, axisEvents, scaledAxes, mem_if_list,
        ABS_X, ABS_Y, ABS_Z, ABS_RX, ABS_RY, ABS_RZ]
  · rfl

/-- C1 counterexample: from the initial state, process raw x = 100 (event
0), then a sample with raw x = 0 and event bitmask 1.  In the second cycle
the scaled X value (0) differs from the last-emitted one (2000) — axis
motion in the claim's delta sense — yet a low-level button press is
emitted, because the code's suppression test looks at the current scaled
values, which are all zero. -/
theorem c1_motion_priority_cex :
    ((scaledAxes ⟨0, 0, 0, 0, 0, 0, 0, 0, 1, 0, 0⟩).x ≠
        ((mouseUpdate initMouseState ⟨100, 0, 0, 0, 0, 0, 0, 0, 0, 0, 0⟩).2).lastAxis.x) ∧
    Ev.key (BTN_MISC + 0) 1 ∈
      (mouseUpdate (mouseUpdate initMouseState ⟨100, 0, 0, 0, 0, 0, 0, 0, 0, 0, 0⟩).2
        ⟨0, 0, 0, 0, 0, 0, 0, 0, 1, 0, 0⟩).1 := by
  constructor
  · decide
  · decide

/-- C1 (amended): motion priority holds for presses under the code's own
motion test: whenever any of the six scaled current axis values is
non-zero, no button press (low-level or high-level) is emitted that cycle,
regardless of the event field; releases of previously active buttons may
still be emitted. -/
theorem c1_motion_no_press_amended :
    ∀ (st : MouseState) (s : Sample),
      isMoving (scaledAxes s) = true →
      ∀ c : Nat, Ev.key c 1 ∉ (mouseUpdate st s).1 := by
  intro st s hmov c hmem
  simp only [mouseUpdate, baseUpdate, mouseLow, hmov, currentHigh_true,
    desiredLowNames_moving, List.mem_append] at hmem
  rcases hmem with (((h | h) | h) | h) | h
  · exact key_not_mem_axisEvents _ _ _ _ h
  · obtain ⟨c2, hc⟩ := mem_highRelease h
    simp at hc
  · rw [highPress_none] at h
    simp at h
  · exact lowPassAux_no_press _ _ _ h
  · simp at h

/-- C1 witness: a concrete moving cycle (raw x = 100, event bitmask 1)
emits no press for button code 256. -/
theorem c1_motion_no_press_amended_witness :
    Ev.key 256 1 ∉
      (mouseUpdate initMouseState ⟨100, 0, 0, 0, 0, 0, 0, 0, 1, 0, 0⟩).1 :=
  c1_motion_no_press_amended initMouseState ⟨100, 0, 0, 0, 0, 0, 0, 0, 1, 0, 0⟩ (by decide) 256

/-- C7: in a no-motion cycle whose event value is at least 0x20000 but
absent from both the symbolic-name table and the 3D-mouse high-level
button table, no press at all is emitted (in particular none for the
unknown code), while a previously active mapped high-level button is
released that cycle and the previously active code stops being the
tracked high-level state. -/
theorem c7_unknown_high :
    ∀ (st : MouseState) (s : Sample),
      s.x = 0 → s.y = 0 → s.z = 0 → s.a = 0 → s.b = 0 → s.c = 0 →
      HIGH_LEVEL_EVENT_THRESHOLD ≤ s.event →
      alookup EVENT_ID_TO_NAME s.event = none →
      alookup HIGH_LEVEL_EVENT_MAP_FOR_UINPUT s.event = none →
      (∀ c : Nat, Ev.key c 1 ∉ (mouseUpdate st s).1) ∧
      (∀ (a : Int) (code : Nat), st.lastHigh = some a →
        alookup HIGH_LEVEL_EVENT_MAP_FOR_UINPUT a = some code →
        Ev.key code 0 ∈ (mouseUpdate st s).1) ∧
      (∀ a : Int, st.lastHigh = some a →
        (alookup HIGH_LEVEL_EVENT_MAP_FOR_UINPUT a).isSome →
        (mouseUpdate st s).2.lastHigh ≠ some a) := by
  intro st s hx hy hz ha hb hc hth hn hm
  have hmv : isMoving (scaledAxes s) = false := by
    simp [isMoving, scaledAxes, hx, hy, hz, ha, hb, hc]
  have hch : currentHigh s.event (isMoving (scaledAxes s)) = some s.event := by
    rw [hmv]; simp [currentHigh, hth]
  have hdes : desiredLowNames s.event
      (currentHigh s.event (isMoving (scaledAxes s))) (isMoving (scaledAxes s)) = [] := by
    rw [hch]
    simp [desiredLowNames]
  refine ⟨?_, ?_, ?_⟩
  · intro c hmem
    simp only [mouseUpdate, baseUpdate, mouseLow, hdes, List.mem_append] at hmem
    rw [hch] at hmem
    have hpr : highPress st.lastHigh (some s.event) = [] := by
      by_cases hl : st.lastHigh = some s.event
      · simp [highPress, hl]
      · simp [highPress, hl, hm]
    rcases hmem with (((h | h) | h) | h) | h
    · exact key_not_mem_axisEvents _ _ _ _ h
    · obtain ⟨c2, hc2⟩ := mem_highRelease h
      simp at hc2
    · rw [hpr] at h
      simp at h
    · exact lowPassAux_no_press _ _ _ h
    · simp at h
  · intro a code hlast hcode
    have hne : s.event ≠ a := by
      intro he
      rw [← he, hm] at hcode
      cases hcode
    simp only [mouseUpdate, List.mem_append]
    left; left; left; right
    rw [hch, hlast]
    simp [highRelease, hne, hcode]
  · intro a hlast hsome heq
    obtain ⟨code, hcode⟩ := Option.isSome_iff_exists.mp hsome
    have hne : s.event ≠ a := by
      intro he
      rw [← he, hm] at hcode
      cases hcode
    have h2 : (mouseUpdate st s).2.lastHigh = some s.event := by
      simp only [mouseUpdate]
      exact hch
    rw [h2] at heq
    exact hne (Option.some.inj heq)

/-- C7 witness: with DEV_FRONT (0x20009) previously active and unknown
code 0x2FFFF arriving in a still cycle, the DEV_FRONT button (BTN_SIDE,
275) is released, the tracked state is no longer DEV_FRONT, and no press
with code 275 is emitted. -/
theorem c7_unknown_high_witness :
    Ev.key 275 0 ∈
      (mouseUpdate ⟨initAxisVals, [], some 0x20009⟩ ⟨0, 0, 0, 0, 0, 0, 0, 0, 0x2FFFF, 0, 0⟩).1 ∧
    (mouseUpdate ⟨initAxisVals, [], some 0x20009⟩
        ⟨0, 0, 0, 0, 0, 0, 0, 0, 0x2FFFF, 0, 0⟩).2.lastHigh ≠ some 0x20009 ∧
    Ev.key 275 1 ∉
      (mouseUpdate ⟨initAxisVals, [], some 0x20009⟩ ⟨0, 0, 0, 0, 0, 0, 0, 0, 0x2FFFF, 0, 0⟩).1 := by
  have h := c7_unknown_high ⟨initAxisVals, [], some 0x20009⟩
    ⟨0, 0, 0, 0, 0, 0, 0, 0, 0x2FFFF, 0, 0⟩
    rfl rfl rfl rfl rfl rfl (by decide) (by decide) (by decide)
  exact ⟨h.2.1 0x20009 275 rfl (by decide), h.2.2 0x20009 rfl (by decide), h.1 275⟩

lemma alookup_mem {α β : Type} [DecidableEq α] {l : List (α × β)} {k : α} {v : β}
    (h : alookup l k = some v) : (k, v) ∈ l := by
  induction l with
  | nil => simp [alookup] at h
  | cons p rest ih =>
    rw [alookup] at h
    split_ifs at h with hk
    · refine List.mem_cons.mpr (Or.inl ?_)
      rw [hk, ← Option.some.inj h]
    · exact List.mem_cons.mpr (Or.inr (ih h))

lemma alookup_highmap_ge (v : Int) (c : Nat)
    (h : alookup HIGH_LEVEL_EVENT_MAP_FOR_UINPUT v = some c) :
    HIGH_LEVEL_EVENT_THRESHOLD ≤ v := by
  have hall : ∀ p ∈ HIGH_LEVEL_EVENT_MAP_FOR_UINPUT, HIGH_LEVEL_EVENT_THRESHOLD ≤ p.1 := by
    decide
  exact hall (v, c) (alookup_mem h)

lemma gamepadResolve_ge (v : Int) (c : Nat) (h : gamepadResolve v = some c) :
    HIGH_LEVEL_EVENT_THRESHOLD ≤ v := by
  have hks : (gamepadHighKey v).isSome := by
    unfold gamepadResolve at h
    cases hk : gamepadHighKey v with
    | none => rw [hk] at h; cases h
    | some k => simp
  have hnm : ∃ nm, alookup EVENT_ID_TO_NAME v = some nm := by
    unfold gamepadHighKey at hks
    cases hn : alookup EVENT_ID_TO_NAME v with
    | none => rw [hn] at hks; simp at hks
    | some nm => exact ⟨nm, rfl⟩
  obtain ⟨nm, hn⟩ := hnm
  have hga : ∀ p ∈ EVENT_ID_TO_NAME, (gamepadHighKey p.1).isSome = true →
      HIGH_LEVEL_EVENT_THRESHOLD ≤ p.1 := by decide
  exact hga (v, nm) (alookup_mem hn) hks

/-- C5: for each dispatcher, when the tracked high-level code transitions
from a mapped code A to a different mapped code B in a still cycle, the
release of A's mapped button is emitted strictly before (here:
immediately before) the press of B's mapped button, within the same
update cycle. -/
theorem c5_high_transition_order :
    (∀ (st : MouseState) (s : Sample) (ea eb : Int) (ca cb : Nat),
      st.lastHigh = some ea →
      alookup HIGH_LEVEL_EVENT_MAP_FOR_UINPUT ea = some ca →
      alookup HIGH_LEVEL_EVENT_MAP_FOR_UINPUT eb = some cb →
      ea ≠ eb → s.event = eb →
      s.x = 0 → s.y = 0 → s.z = 0 → s.a = 0 → s.b = 0 → s.c = 0 →
      ∃ pre post, (mouseUpdate st s).1 = pre ++ Ev.key ca 0 :: Ev.key cb 1 :: post) ∧
    (∀ (st : GamepadState) (s : Sample) (ea eb : Int) (ca cb : Nat),
      st.lastHigh = some ea →
      gamepadResolve ea = some ca →
      gamepadResolve eb = some cb →
      ea ≠ eb → s.event = eb →
      s.x = 0 → s.y = 0 → s.z = 0 → s.a = 0 → s.b = 0 → s.c = 0 →
      ∃ pre post, (gamepadUpdate st s).1 = pre ++ Ev.key ca 0 :: Ev.key cb 1 :: post) := by
  constructor
  · intro st s ea eb ca cb hlast hca hcb hne hev hx hy hz ha hb hc
    have hne2 : eb ≠ ea := fun h => hne h.symm
    have hmv : isMoving (scaledAxes s) = false := by
      simp [isMoving, scaledAxes, hx, hy, hz, ha, hb, hc]
    have hth : HIGH_LEVEL_EVENT_THRESHOLD ≤ eb := alookup_highmap_ge eb cb hcb
    have hch : currentHigh s.event (isMoving (scaledAxes s)) = some eb := by
      rw [hmv]; simp [currentHigh, hth, hev]
    have hrel : highRelease st.lastHigh
        (currentHigh s.event (isMoving (scaledAxes s))) = [Ev.key ca 0] := by
      rw [hch, hlast]
      simp [highRelease, hca, hne2]
    have hprs : highPress st.lastHigh
        (currentHigh s.event (isMoving (scaledAxes s))) = [Ev.key cb 1] := by
      rw [hch, hlast]
      simp [highPress, hcb, hne]
    refine ⟨(baseUpdate st.lastAxis s).1, (mouseLow st s).1 ++ [Ev.syn], ?_⟩
    simp only [mouseUpdate, hrel, hprs]
    simp
  · intro st s ea eb ca cb hlast hca hcb hne hev hx hy hz ha hb hc
    have hne2 : eb ≠ ea := fun h => hne h.symm
    have hmv : isMoving (scaledAxes s) = false := by
      simp [isMoving, scaledAxes, hx, hy, hz, ha, hb, hc]
    have hth : HIGH_LEVEL_EVENT_THRESHOLD ≤ eb := gamepadResolve_ge eb cb hcb
    have hch : currentHigh s.event (isMoving (scaledAxes s)) = some eb := by
      rw [hmv]; simp [currentHigh, hth, hev]
    have hrel : gpRelease st.lastHigh
        (currentHigh s.event (isMoving (scaledAxes s))) = [Ev.key ca 0] := by
      rw [hch, hlast]
      simp [gpRelease, hca, hne2]
    have hprs : gpPress st.lastHigh
        (currentHigh s.event (isMoving (scaledAxes s))) = [Ev.key cb 1] := by
      rw [hch, hlast]
      simp [gpPress, hcb, hne]
    refine ⟨(baseUpdate st.lastAxis s).1, [], ?_⟩
    simp only [gamepadUpdate, hrel, hprs]
    simp

/-- C5 witness: DEV_FRONT to DEV_RIGHT on the 3D mouse emits release 275
then press 276; DEV_WHEEL_LEFT to DEV_WHEEL_RIGHT on the gamepad emits
release 312 (BTN_TL2) then press 313 (BTN_TR2). -/
theorem c5_high_transition_order_witness :
    (∃ pre post, (mouseUpdate ⟨initAxisVals, [], some 0x20009⟩
        ⟨0, 0, 0, 0, 0, 0, 0, 0, 0x2000A, 0, 0⟩).1 =
      pre ++ Ev.key 275 0 :: Ev.key 276 1 :: post) ∧
    (∃ pre post, (gamepadUpdate ⟨initAxisVals, [], some 0x2000D⟩
        ⟨0, 0, 0, 0, 0, 0, 0, 0, 0x2000E, 0, 0⟩).1 =
      pre ++ Ev.key 312 0 :: Ev.key 313 1 :: post) :=
  ⟨c5_high_transition_order.1 ⟨initAxisVals, [], some 0x20009⟩
      ⟨0, 0, 0, 0, 0, 0, 0, 0, 0x2000A, 0, 0⟩ 0x20009 0x2000A 275 276
      rfl (by decide) (by decide) (by decide) rfl rfl rfl rfl rfl rfl rfl,
   c5_high_transition_order.2 ⟨initAxisVals, [], some 0x2000D⟩
      ⟨0, 0, 0, 0, 0, 0, 0, 0, 0x2000E, 0, 0⟩ 0x2000D 0x2000E 312 313
      rfl (by decide) (by decide) (by decide) rfl rfl rfl rfl rfl rfl rfl⟩

lemma mouseUpdate_sample_congr (st : MouseState) (s1 s2 : Sample)
    (hx : s2.x = s1.x) (hy : s2.y = s1.y) (hz : s2.z = s1.z)
    (ha : s2.a = s1.a) (hb : s2.b = s1.b) (hc : s2.c = s1.c)
    (he : s2.event = s1.event) :
    mouseUpdate st s2 = mouseUpdate st s1 := by
  have hsc : scaledAxes s2 = scaledAxes s1 := by
    simp [scaledAxes, hx, hy, hz, ha, hb, hc]
  simp [mouseUpdate, baseUpdate, mouseLow, hsc, he]

lemma mouseUpdate_idem (st : MouseState) (s : Sample) :
    (mouseUpdate (mouseUpdate st s).2 s).1 = [Ev.syn] := by
  simp only [mouseUpdate, baseUpdate, mouseLow]
  rw [axisEvents_self, highRelease_self, highPress_self]
  rw [lowPassAux_no_events]
  · simp
  · intro n hn hm
    exact lowPassAux_get_mem BUTTON_NAMES st.lowBtns _ n hn hm

/-- C8: a sample whose six axis values and event field equal those of the
previous cycle's sample makes the 3D-mouse dispatcher emit no axis event
and no button press or release: the cycle's full output is the lone
synchronize call. -/
theorem c8_idempotence :
    ∀ (st : MouseState) (s1 s2 : Sample),
      s2.x = s1.x → s2.y = s1.y → s2.z = s1.z →
      s2.a = s1.a → s2.b = s1.b → s2.c = s1.c →
      s2.event = s1.event →
      (mouseUpdate (mouseUpdate st s1).2 s2).1 = [Ev.syn] := by
  intro st s1 s2 hx hy hz ha hb hc he
  rw [mouseUpdate_sample_congr _ s1 s2 hx hy hz ha hb hc he]
  exact mouseUpdate_idem st s1

/-- C8 witness: repeating a moving sample with bitmask 3 (only the
timestamp differs) yields a second cycle emitting only the synchronize
call. -/
theorem c8_idempotence_witness :
    (mouseUpdate (mouseUpdate initMouseState ⟨5, 0, 0, 0, 0, 0, 0, 0, 3, 10, 0⟩).2
      ⟨5, 0, 0, 0, 0, 0, 0, 0, 3, 11, 0⟩).1 = [Ev.syn] :=
  c8_idempotence initMouseState ⟨5, 0, 0, 0, 0, 0, 0, 0, 3, 10, 0⟩
    ⟨5, 0, 0, 0, 0, 0, 0, 0, 3, 11, 0⟩ rfl rfl rfl rfl rfl rfl rfl

lemma testBit_high (e k : Nat) (he : e < 2 ^ 17) (hk : 17 ≤ k) : e.testBit k = false :=
  Nat.testBit_eq_false_of_lt (lt_of_lt_of_le he (Nat.pow_le_pow_right (by norm_num) hk))

lemma table_bits_agree {e1 e2 : Nat} (h1 : e1 < 2 ^ 17) (h2 : e2 < 2 ^ 17)
    (hag : ∀ i < 17, i ≠ 15 → i ≠ 16 → e1.testBit i = e2.testBit i) :
    ∀ p ∈ BUTTON_BIT_MAP, e1.testBit p.1 = e2.testBit p.1 := by
  intro p hp
  fin_cases hp <;>
    first
      | exact hag _ (by decide) (by decide) (by decide)
      | rw [testBit_high e1 _ h1 (by decide), testBit_high e2 _ h2 (by decide)]

lemma desiredCore_congr {e1 e2 : Nat}
    (h : ∀ p ∈ BUTTON_BIT_MAP, e1.testBit p.1 = e2.testBit p.1) :
    desiredCore e1 = desiredCore e2 := by
  unfold desiredCore
  exact List.filterMap_congr (fun p hp => by rw [h p hp])

lemma mouseUpdate_event_bits_invariant (st : MouseState) (s : Sample) (e1 e2 : Nat)
    (h1 : e1 < 2 ^ 17) (h2 : e2 < 2 ^ 17)
    (hag : ∀ i < 17, i ≠ 15 → i ≠ 16 → e1.testBit i = e2.testBit i) :
    mouseUpdate st { s with event := (e1 : Int) } =
      mouseUpdate st { s with event := (e2 : Int) } := by
  have hcore : desiredCore e1 = desiredCore e2 :=
    desiredCore_congr (table_bits_agree h1 h2 hag)
  have h1n : e1 < 131072 := by simpa using h1
  have h2n : e2 < 131072 := by simpa using h2
  have hlt1 : ((e1 : Int)) < HIGH_LEVEL_EVENT_THRESHOLD := by
    simp only [HIGH_LEVEL_EVENT_THRESHOLD]
    exact_mod_cast h1n
  have hlt2 : ((e2 : Int)) < HIGH_LEVEL_EVENT_THRESHOLD := by
    simp only [HIGH_LEVEL_EVENT_THRESHOLD]
    exact_mod_cast h2n
  have hch1 : ∀ mv, currentHigh ((e1 : Int)) mv = none := by
    intro mv
    unfold currentHigh
    rw [if_neg]
    rintro ⟨hth, _⟩
    exact absurd hlt1 (not_lt.mpr hth)
  have hch2 : ∀ mv, currentHigh ((e2 : Int)) mv = none := by
    intro mv
    unfold currentHigh
    rw [if_neg]
    rintro ⟨hth, _⟩
    exact absurd hlt2 (not_lt.mpr hth)
  have hdeseq : ∀ mv : Bool, desiredLowNames ((e1 : Int)) none mv =
      desiredLowNames ((e2 : Int)) none mv := by
    intro mv
    unfold desiredLowNames
    simp only [Int.toNat_natCast]
    cases mv with
    | true => simp
    | false =>
      by_cases hz1 : e1 = 0
      · subst hz1
        have hce2 : desiredCore e2 = [] := by rw [← hcore]; decide
        simp [hce2]
      · by_cases hz2 : e2 = 0
        · subst hz2
          have hce1 : desiredCore e1 = [] := by rw [hcore]; decide
          simp [hce1]
        · have p1 : (0 : Int) < (e1 : Int) := by exact_mod_cast Nat.pos_of_ne_zero hz1
          have p2 : (0 : Int) < (e2 : Int) := by exact_mod_cast Nat.pos_of_ne_zero hz2
          rw [if_pos (by refine ⟨p1, hlt1, ?_, ?_⟩ <;> trivial),
            if_pos (by refine ⟨p2, hlt2, ?_, ?_⟩ <;> trivial)]
          exact hcore
  have hsc1 : scaledAxes { s with event := ((e1 : Nat) : Int) } = scaledAxes s := rfl
  have hsc2 : scaledAxes { s with event := ((e2 : Nat) : Int) } = scaledAxes s := rfl
  simp only [mouseUpdate, baseUpdate, mouseLow, hsc1, hsc2, hch1, hch2, hdeseq]

lemma mouseReach_keys (st : MouseState) (h : MouseReach st) :
    ∀ p ∈ st.lowBtns, p.1 ∈ BUTTON_NAMES := by
  induction h with
  | init => intro p hp; simp [initMouseState] at hp
  | step st0 s h0 ih =>
    intro p hp
    simp only [mouseUpdate, mouseLow] at hp
    rcases lowPassAux_keys hp with hb | hn
    · rcases List.mem_map.mp hb with ⟨q, hq, hq1⟩
      exact hq1 ▸ ih q hq
    · exact hn

/-- C10: bit positions 15 and 16 are reserved: they have no entry in the
bit table, the 3D-mouse dispatcher's output and state are invariant under
changing those two bits of a low-level event bitmask (they are never
tested), and every reachable ButtonState only holds entries for table
button names — hence never one for the reserved positions. -/
theorem c10_reserved_bits :
    (∀ p ∈ BUTTON_BIT_MAP, p.1 ≠ 15 ∧ p.1 ≠ 16) ∧
    (∀ (st : MouseState) (s : Sample) (e1 e2 : Nat),
      e1 < 2 ^ 17 → e2 < 2 ^ 17 →
      (∀ i < 17, i ≠ 15 → i ≠ 16 → e1.testBit i = e2.testBit i) →
      mouseUpdate st { s with event := (e1 : Int) } =
        mouseUpdate st { s with event := (e2 : Int) }) ∧
    (∀ st : MouseState, MouseReach st → ∀ p ∈ st.lowBtns, p.1 ∈ BUTTON_NAMES) :=
  ⟨by decide, mouseUpdate_event_bits_invariant, mouseReach_keys⟩

/-- C10 witness: bitmasks 3 and 98307 (3 with bits 15 and 16 set) drive
the dispatcher identically from the initial state, and the state reached
by processing bitmask 3 only holds table names, such as SC_KEY_1. -/
theorem c10_reserved_bits_witness :
    (mouseUpdate initMouseState
        { (⟨0, 0, 0, 0, 0, 0, 0, 0, 0, 0, 0⟩ : Sample) with event := ((3 : Nat) : Int) } =
      mouseUpdate initMouseState
        { (⟨0, 0, 0, 0, 0, 0, 0, 0, 0, 0, 0⟩ : Sample) with event := ((98307 : Nat) : Int) }) ∧
    (("SC_KEY_1", true) : String × Bool).1 ∈ BUTTON_NAMES :=
  ⟨c10_reserved_bits.2.1 initMouseState ⟨0, 0, 0, 0, 0, 0, 0, 0, 0, 0, 0⟩ 3 98307
      (by decide) (by decide) (by decide),
   c10_reserved_bits.2.2 (mouseUpdate initMouseState ⟨0, 0, 0, 0, 0, 0, 0, 0, 3, 0, 0⟩).2
      (MouseReach.step initMouseState ⟨0, 0, 0, 0, 0, 0, 0, 0, 3, 0, 0⟩ MouseReach.init)
      ("SC_KEY_1", true) (by decide)⟩
